import Mathlib

/-!
# CADExchange — shallow embedding and verification of the spec's claims

This file embeds the core of the CADExchange repository in Lean 4:
the geometric primitives and standard-datum constants
(`core/UnifiedTypes.h`), the reference-entity and feature data model
(`include/UnifiedFeatures.h`), the model container (`core/UnifiedModel.h`),
the XML serializer (`src/TinyXMLSerializer.cpp`) and the construction
builders (`builders/ExtrudeBuilder.h`, `service/builders/FeatureBuilderBase.h`,
`service/builders/SketchBuilder.h`).

Modelling conventions:
* C++ `double` is embedded as `ℚ`.  `std::sqrt` is embedded by `ratSqrt`,
  the exact rational square root on rationals whose numerator and
  denominator are perfect squares; every input on which a theorem below
  evaluates it falls in that class, where `ratSqrt` agrees exactly with
  the double computation.
* tinyxml2 attribute values are embedded as a typed value (`AttrVal`)
  rather than as rendered text: `SetAttribute(double)` /
  `QueryDoubleAttribute` become the `num` alternative,
  `FormatTriple` / `TryParseTriple` become the `triple` alternative, and
  so on.  This identifies a numeric attribute with the exact value its
  text denotes; the decimal rendering itself is not modelled.
* `std::shared_ptr` fields become `Option` of the pointed-to value;
  a null pointer is `none`.
* The C++ class hierarchy of reference entities becomes one inductive
  type with one constructor per concrete class; `dynamic_pointer_cast`
  becomes a constructor match.
-/

namespace CADExchange

/-! ## Geometry (`core/UnifiedTypes.h`) -/

/-- `GeoUtils::EPSILON`, the geometric comparison tolerance. -/
def EPSILON : ℚ := 1 / 1000000

/-- `CPoint3D`: three doubles. -/
structure CPoint3D where
  x : ℚ := 0
  y : ℚ := 0
  z : ℚ := 0
deriving DecidableEq, Repr

/-- `CVector3D`: three doubles. -/
structure CVector3D where
  x : ℚ := 0
  y : ℚ := 0
  z : ℚ := 0
deriving DecidableEq, Repr

/-- `CVector3D::Cross`. -/
def cross (a b : CVector3D) : CVector3D :=
  ⟨a.y * b.z - a.z * b.y, a.z * b.x - a.x * b.z, a.x * b.y - a.y * b.x⟩

/-- Newton iteration for the integer square root, with explicit fuel so
that it reduces structurally. -/
def sqrtIter : Nat → Nat → Nat → Nat
  | 0, _, guess => guess
  | fuel + 1, n, guess =>
    let next := (guess + n / guess) / 2
    if next < guess then sqrtIter fuel n next else guess

/-- The integer square root (the greatest `k` with `k * k ≤ n`). -/
def natSqrt (n : Nat) : Nat :=
  if n ≤ 1 then n else sqrtIter n n (n / 2 + 1)

/-- Embedding of `std::sqrt` on `ℚ`: exact whenever numerator and
denominator are perfect squares, which covers every input where this
development evaluates it. -/
def ratSqrt (q : ℚ) : ℚ :=
  (natSqrt q.num.toNat : ℚ) / (natSqrt q.den : ℚ)

/-- `CVector3D::Normalize`: divide by the length when it exceeds
`EPSILON`, otherwise leave the vector unchanged. -/
def normalize (v : CVector3D) : CVector3D :=
  let len := ratSqrt (v.x * v.x + v.y * v.y + v.z * v.z)
  if EPSILON < len then ⟨v.x / len, v.y / len, v.z / len⟩ else v

/-- `ComputePlaneYAxis` (`TinyXMLSerializer.cpp`): the cross product of
the normal with the x-direction, normalized. -/
def ComputePlaneYAxis (normal xDir : CVector3D) : CVector3D :=
  normalize (cross normal xDir)

/-- `|a - b| < EPSILON`, the point/vector coordinate tolerance of the
spec's §3 (the comparison used by `CPoint3D::operator==`). -/
def qNear (a b : ℚ) : Prop := |a - b| < EPSILON

instance (a b : ℚ) : Decidable (qNear a b) := by
  unfold qNear; infer_instance

/-! ## Standard datum identifiers (`core/UnifiedTypes.h`, `StandardID`) -/

namespace StandardID

def PLANE_XY : String := "STD_DATUM_XY"
def PLANE_YZ : String := "STD_DATUM_YZ"
def PLANE_ZX : String := "STD_DATUM_ZX"
def AXIS_X : String := "STD_AXIS_X"
def AXIS_Y : String := "STD_AXIS_Y"
def AXIS_Z : String := "STD_AXIS_Z"
def ORIGIN : String := "STD_POINT_ORIGIN"

/-- `StandardID::IsStandardPlane`. -/
def IsStandardPlane (id : String) : Bool :=
  id = PLANE_XY || id = PLANE_YZ || id = PLANE_ZX

/-- `StandardID::IsStandardAxis`. -/
def IsStandardAxis (id : String) : Bool :=
  id = AXIS_X || id = AXIS_Y || id = AXIS_Z

/-- `StandardID::IsStandardPoint`. -/
def IsStandardPoint (id : String) : Bool := id = ORIGIN

end StandardID

/-- The anonymous-namespace `ToLower` helper of the serializer
(`std::tolower` over each character, ASCII). -/
def ToLower (s : String) : String := ⟨s.data.map Char.toLower⟩

/-! ## XML document model (tinyxml2 as used by the serializer) -/

/-- A typed attribute value; see the modelling conventions above. -/
inductive AttrVal
  | str (s : String)
  | num (q : ℚ)
  | int (n : Int)
  | bool (b : Bool)
  | triple (x y z : ℚ)
deriving DecidableEq, Repr

/-- An XML element: name, attributes, child elements. -/
structure XElem where
  name : String
  attrs : List (String × AttrVal) := []
  children : List XElem := []
deriving Repr

/-- Look up an attribute by name (tinyxml2 `FindAttribute`). -/
def XElem.getAttr (e : XElem) (n : String) : Option AttrVal :=
  (e.attrs.find? (fun p => p.1 = n)).map (fun p => p.2)

/-- `element->Attribute(name)` on an attribute written as a string;
`none` models a null `char*`. -/
def attrStr (e : XElem) (n : String) : Option String :=
  match e.getAttr n with
  | some (.str s) => some s
  | _ => none

/-- `TryParseTriple(element->Attribute(name), ...)`. -/
def parseTripleAttr (e : XElem) (n : String) : Option (ℚ × ℚ × ℚ) :=
  match e.getAttr n with
  | some (.triple x y z) => some (x, y, z)
  | _ => none

/-- `ParsePointAttribute` / `LoadPoint3D`: a default-constructed point,
overwritten only when the triple parses. -/
def ParsePointAttribute (e : XElem) (n : String) : CPoint3D :=
  match parseTripleAttr e n with
  | some (x, y, z) => ⟨x, y, z⟩
  | none => ⟨0, 0, 0⟩

/-- `ParseVectorAttribute` / `LoadVector3D`. -/
def ParseVectorAttribute (e : XElem) (n : String) : CVector3D :=
  match parseTripleAttr e n with
  | some (x, y, z) => ⟨x, y, z⟩
  | none => ⟨0, 0, 0⟩

/-- `QueryIntAttribute(name, &var)`: overwrite `cur` only on success. -/
def queryInt (e : XElem) (n : String) (cur : Int) : Int :=
  match e.getAttr n with
  | some (.int i) => i
  | _ => cur

/-- `QueryDoubleAttribute(name, &var)`. -/
def queryDouble (e : XElem) (n : String) (cur : ℚ) : ℚ :=
  match e.getAttr n with
  | some (.num q) => q
  | _ => cur

/-- `QueryBoolAttribute(name, &var)`. -/
def queryBool (e : XElem) (n : String) (cur : Bool) : Bool :=
  match e.getAttr n with
  | some (.bool b) => b
  | _ => cur

/-- `FirstChildElement(name)`. -/
def XElem.firstChild (e : XElem) (n : String) : Option XElem :=
  e.children.find? (fun c => c.name = n)

/-- The children named `n`, in order (`FirstChildElement` /
`NextSiblingElement` iteration). -/
def XElem.childrenNamed (e : XElem) (n : String) : List XElem :=
  e.children.filter (fun c => c.name = n)

/-! ## Reference entities (`include/UnifiedFeatures.h`) -/

/-- `RefType`. -/
inductive RefType
  | featureDatumPlane
  | featureDatumAxis
  | featureDatumPoint
  | featureWholeSketch
  | topoFace
  | topoEdge
  | topoVertex
  | topoSketchSeg
deriving DecidableEq, Repr

/-- The concrete reference-entity classes, one constructor per class.
`refFeature` is a plain `CRefFeature` carrying an explicit tag; it is
also the shape the serializer produces for datum-axis and datum-point
references.  (`CRefAxis` / `CRefPoint` class definitions are not in the
repository's sources; per the spec's §3 a DatumAxis/DatumPoint reference
carries only a `targetFeatureID`, which is exactly `refFeature`.) -/
inductive CRefEntity
  | refFeature (refType : RefType) (targetFeatureID : String)
  | plane (targetFeatureID : String) (origin : CPoint3D)
      (xDir yDir normal : CVector3D)
  | sketchRef (targetFeatureID : String)
  | face (parentFeatureID : String) (topologyIndex : Int)
      (normal : CVector3D) (centroid : CPoint3D) (uDir vDir : CVector3D)
  | edge (parentFeatureID : String) (topologyIndex : Int)
      (midPoint : CPoint3D)
  | vertex (parentFeatureID : String) (topologyIndex : Int)
      (pos : CPoint3D)
  | sketchSeg (parentFeatureID : String) (topologyIndex : Int)
      (segmentLocalID : String)
deriving DecidableEq, Repr

/-- The `refType` tag of a reference entity (fixed by the constructor of
each concrete class, explicit on `refFeature`). -/
def CRefEntity.refTypeOf : CRefEntity → RefType
  | .refFeature t _ => t
  | .plane _ _ _ _ _ => .featureDatumPlane
  | .sketchRef _ => .featureWholeSketch
  | .face _ _ _ _ _ _ => .topoFace
  | .edge _ _ _ => .topoEdge
  | .vertex _ _ _ => .topoVertex
  | .sketchSeg _ _ _ => .topoSketchSeg

/-! ## Sketch segments and constraints (`include/UnifiedFeatures.h`) -/

/-- `CSketchSeg` and its concrete classes (the `SPLINE` enum value has
no class and is never constructed). -/
inductive CSketchSeg
  | line (localID : String) (isConstruction : Bool)
      (startPos endPos : CPoint3D)
  | circle (localID : String) (isConstruction : Bool)
      (center : CPoint3D) (radius : ℚ)
  | arc (localID : String) (isConstruction : Bool) (center : CPoint3D)
      (radius startAngle endAngle : ℚ) (isClockwise : Bool)
  | point (localID : String) (isConstruction : Bool)
      (position : CPoint3D)
deriving DecidableEq, Repr

/-- `CSketchConstraint`.  The `type` field is the underlying integer of
`ConstraintType`: the loader applies an unchecked `static_cast` from any
parsed integer, so the embedded field is `Int`. -/
structure CSketchConstraint where
  type : Int := 0
  entityLocalIDs : List String := []
  dimensionValue : ℚ := 0
deriving DecidableEq, Repr

/-! ## Features (`include/UnifiedFeatures.h`) -/

/-- `UnitType`. -/
inductive UnitType
  | meter | centimeter | millimeter | inch | foot
deriving DecidableEq, Repr

/-- `BooleanOp`. -/
inductive BooleanOp
  | boss | cut | merge
deriving DecidableEq, Repr

/-- The identity fields of `CFeatureBase`. -/
structure CFeatureBase where
  featureID : String := ""
  featureName : String := ""
  externalID : String := ""
  isSuppressed : Bool := false
deriving DecidableEq, Repr

/-- `CSketch`. -/
structure CSketch where
  base : CFeatureBase := {}
  referencePlane : Option CRefEntity := none
  segments : List CSketchSeg := []
  constraints : List CSketchConstraint := []
deriving DecidableEq, Repr

/-- `ExtrudeEndCondition::Type`. -/
inductive EndConditionType
  | blind | throughAll | upToNext | upToFace | upToVertex | midPlane
deriving DecidableEq, Repr

/-- `ExtrudeEndCondition`. -/
structure ExtrudeEndCondition where
  type : EndConditionType := .blind
  depth : ℚ := 0
  offset : ℚ := 0
  hasOffset : Bool := false
  referenceEntity : Option CRefEntity := none
  isFlip : Bool := false
  isFlipMaterialSide : Bool := false
deriving DecidableEq, Repr

/-- `DraftOption`. -/
structure DraftOption where
  angle : ℚ := 0
  outward : Bool := false
deriving DecidableEq, Repr

/-- `ThinWallOption`. -/
structure ThinWallOption where
  thickness : ℚ := 0
  isOneSided : Bool := true
  isCovered : Bool := false
deriving DecidableEq, Repr

/-- `CExtrude`. -/
structure CExtrude where
  base : CFeatureBase := {}
  sketchProfile : Option CSketch := none
  direction : CVector3D := ⟨0, 0, 1⟩
  endCondition1 : ExtrudeEndCondition := {}
  endCondition2 : Option ExtrudeEndCondition := none
  operation : BooleanOp := .boss
  draft : Option DraftOption := none
  thinWall : Option ThinWallOption := none
deriving DecidableEq, Repr

/-- `CRevolveAxis::Kind`. -/
inductive RevolveAxisKind
  | sketchLine | explicitAxis | reference
deriving DecidableEq, Repr

/-- The integer written for a `CRevolveAxis::Kind`. -/
def RevolveAxisKind.toInt : RevolveAxisKind → Int
  | .sketchLine => 0
  | .explicitAxis => 1
  | .reference => 2

/-- `CRevolveAxis`. -/
structure CRevolveAxis where
  kind : RevolveAxisKind := .explicitAxis
  referenceLocalID : String := ""
  referenceEntity : Option CRefEntity := none
  origin : CPoint3D := {}
  direction : CVector3D := {}
deriving DecidableEq, Repr

/-- `CRevolve::AngleKind`. -/
inductive AngleKind
  | single | twoWay | symmetric
deriving DecidableEq, Repr

/-- The integer written for an `AngleKind`. -/
def AngleKind.toInt : AngleKind → Int
  | .single => 0
  | .twoWay => 1
  | .symmetric => 2

/-- `CRevolve`. -/
structure CRevolve where
  base : CFeatureBase := {}
  profileSketchID : String := ""
  axis : CRevolveAxis := {}
  angleKind : AngleKind := .single
  primaryAngle : ℚ := 0
  secondaryAngle : ℚ := 0
deriving DecidableEq, Repr

/-- A feature: one constructor per concrete `CFeatureBase` subclass. -/
inductive CFeature
  | sketch (s : CSketch)
  | extrude (e : CExtrude)
  | revolve (r : CRevolve)
deriving DecidableEq, Repr

/-- The shared `CFeatureBase` identity of a feature. -/
def CFeature.base : CFeature → CFeatureBase
  | .sketch s => s.base
  | .extrude e => e.base
  | .revolve r => r.base

/-- `GetFeatureAs<CSketch>`'s `dynamic_pointer_cast` step. -/
def CFeature.asSketch : CFeature → Option CSketch
  | .sketch s => some s
  | _ => none

/-! ## The model container (`core/UnifiedModel.h`) -/

/-- `ValidationReport`. -/
structure ValidationReport where
  isValid : Bool := true
  errors : List String := []
  warnings : List String := []
deriving DecidableEq, Repr

/-- `std::unordered_map` assignment `m[k] = v`: replace the entry when
the key is present, insert otherwise. -/
def mapInsert (m : List (String × CFeature)) (k : String) (v : CFeature) :
    List (String × CFeature) :=
  if m.any (fun p => p.1 = k) then
    m.map (fun p => if p.1 = k then (k, v) else p)
  else m ++ [(k, v)]

/-- `std::unordered_map` lookup. -/
def mapFind (m : List (String × CFeature)) (k : String) : Option CFeature :=
  (m.find? (fun p => p.1 = k)).map (fun p => p.2)

/-- `UnifiedModel`: unit, name, the feature list and the two indexes. -/
structure UnifiedModel where
  unit : UnitType := .meter
  modelName : String := ""
  features : List CFeature := []
  index : List (String × CFeature) := []
  externalIndex : List (String × CFeature) := []
deriving DecidableEq, Repr

namespace UnifiedModel

/-- `UnifiedModel::AddFeature`: ignore a null feature; otherwise append
to the list, index by `featureID`, and index by `externalID` when that
is non-empty. -/
def AddFeature (m : UnifiedModel) (feature : Option CFeature) :
    UnifiedModel :=
  match feature with
  | none => m
  | some f =>
    { m with
      features := m.features ++ [f]
      index := mapInsert m.index f.base.featureID f
      externalIndex :=
        if f.base.externalID ≠ "" then
          mapInsert m.externalIndex f.base.externalID f
        else m.externalIndex }

/-- `UnifiedModel::GetFeature`. -/
def GetFeature (m : UnifiedModel) (featureID : String) : Option CFeature :=
  mapFind m.index featureID

/-- `UnifiedModel::GetFeatureByExternalID`. -/
def GetFeatureByExternalID (m : UnifiedModel) (externalID : String) :
    Option CFeature :=
  mapFind m.externalIndex externalID

/-- `UnifiedModel::GetFeatureAs<CSketch>`. -/
def GetFeatureAsSketch (m : UnifiedModel) (featureID : String) :
    Option CSketch :=
  (m.GetFeature featureID).bind CFeature.asSketch

/-- `UnifiedModel::Clear`: reset the list and both indexes. -/
def Clear (m : UnifiedModel) : UnifiedModel :=
  { m with features := [], index := [], externalIndex := [] }

/-- The loop body of `UnifiedModel::Validate`: a feature with an empty
ID flips the report to invalid and appends one error entry. -/
def validateStep (report : ValidationReport) (f : CFeature) :
    ValidationReport :=
  if f.base.featureID = "" then
    { report with
      isValid := false
      errors := report.errors ++ ["Feature with empty ID found."] }
  else report

/-- `UnifiedModel::Validate`: walk the feature list, record one error
per feature with an empty ID, never stop early. -/
def Validate (m : UnifiedModel) : ValidationReport :=
  m.features.foldl validateStep {}

end UnifiedModel

/-! ## Enum token tables (`src/TinyXMLSerializer.cpp`, anonymous namespace) -/

/-- `UnitTypeToString`. -/
def UnitTypeToString : UnitType → String
  | .meter => "Meter"
  | .centimeter => "Centimeter"
  | .millimeter => "Millimeter"
  | .inch => "Inch"
  | .foot => "Foot"

/-- `UnitTypeFromString`: null text gives none; otherwise a
case-insensitive match against the closed vocabulary. -/
def UnitTypeFromString : Option String → Option UnitType
  | none => none
  | some t =>
    let value := ToLower t
    if value = "meter" then some .meter
    else if value = "centimeter" then some .centimeter
    else if value = "millimeter" then some .millimeter
    else if value = "inch" then some .inch
    else if value = "foot" then some .foot
    else none

/-- `BooleanOpToString`. -/
def BooleanOpToString : BooleanOp → String
  | .boss => "BOSS"
  | .cut => "Cut"
  | .merge => "Merge"

/-- `BooleanOpFromString`. -/
def BooleanOpFromString : Option String → Option BooleanOp
  | none => none
  | some t =>
    let value := ToLower t
    if value = "boss" then some .boss
    else if value = "cut" then some .cut
    else if value = "merge" then some .merge
    else none

/-- `ExtrudeEndConditionTypeToString`. -/
def EndConditionTypeToString : EndConditionType → String
  | .blind => "Blind"
  | .throughAll => "ThroughAll"
  | .upToNext => "UpToNext"
  | .upToFace => "UpToFace"
  | .upToVertex => "UpToVertex"
  | .midPlane => "MidPlane"

/-- `ExtrudeEndConditionTypeFromString`. -/
def EndConditionTypeFromString : Option String → Option EndConditionType
  | none => none
  | some t =>
    let value := ToLower t
    if value = "blind" then some .blind
    else if value = "throughall" then some .throughAll
    else if value = "uptonext" then some .upToNext
    else if value = "uptoface" then some .upToFace
    else if value = "uptovertex" then some .upToVertex
    else if value = "midplane" then some .midPlane
    else none

/-! ## Reference-entity serialization
(`kRefSerializerEntries` and friends in `src/TinyXMLSerializer.cpp`) -/

/-- The `name` column of the `kRefSerializerEntries` table
(`RefTypeToString` always finds an entry, since each of the eight tags
has one). -/
def RefTypeToString : RefType → String
  | .featureDatumPlane => "Plane"
  | .featureDatumAxis => "Axis"
  | .featureDatumPoint => "Point"
  | .featureWholeSketch => "Sketch"
  | .topoFace => "Face"
  | .topoEdge => "Edge"
  | .topoVertex => "Vertex"
  | .topoSketchSeg => "SketchSeg"

/-- `RefTypeFromString`: lowercase the text and match the `lowerName`
column of the table. -/
def RefTypeFromString : Option String → Option RefType
  | none => none
  | some t =>
    let value := ToLower t
    if value = "plane" then some .featureDatumPlane
    else if value = "axis" then some .featureDatumAxis
    else if value = "point" then some .featureDatumPoint
    else if value = "sketch" then some .featureWholeSketch
    else if value = "face" then some .topoFace
    else if value = "edge" then some .topoEdge
    else if value = "vertex" then some .topoVertex
    else if value = "sketchseg" then some .topoSketchSeg
    else none

/-- The attribute text written by `FormatPoint` (a `(x,y,z)` triple). -/
def triplePt (p : CPoint3D) : AttrVal := .triple p.x p.y p.z

/-- The attribute text written by `FormatVector`. -/
def tripleVec (v : CVector3D) : AttrVal := .triple v.x v.y v.z

/-- `SaveFeatureReference`: `dynamic_pointer_cast<CRefFeature>` succeeds
for `CRefFeature`, `CRefPlane` and `CRefSketch` objects (the latter two
derive from it); it then writes only `TargetFeatureID`. -/
def SaveFeatureReference : CRefEntity → List (String × AttrVal)
  | .refFeature _ tid => [("TargetFeatureID", .str tid)]
  | .plane tid _ _ _ _ => [("TargetFeatureID", .str tid)]
  | .sketchRef tid => [("TargetFeatureID", .str tid)]
  | _ => []

/-- The `save` lambda of the `kRefSerializerEntries` entry for a tag,
applied to a reference (the `dynamic_pointer_cast` at the head of each
lambda writes nothing when the object is not of the entry's class). -/
def refEntrySave (t : RefType) (r : CRefEntity) : List (String × AttrVal) :=
  match t with
  | .featureDatumPlane =>
    match r with
    | .plane tid origin xDir yDir normal =>
      [("TargetFeatureID", .str tid), ("Origin", triplePt origin),
       ("XDir", tripleVec xDir), ("YDir", tripleVec yDir),
       ("Normal", tripleVec normal)]
    | _ => []
  | .featureDatumAxis => SaveFeatureReference r
  | .featureDatumPoint => SaveFeatureReference r
  | .featureWholeSketch =>
    match r with
    | .sketchRef tid => [("TargetFeatureID", .str tid)]
    | _ => []
  | .topoFace =>
    match r with
    | .face parent idx normal centroid uDir vDir =>
      [("ParentFeatureID", .str parent), ("TopologyIndex", .int idx),
       ("U", tripleVec uDir), ("V", tripleVec vDir),
       ("Normal", tripleVec normal), ("Center", triplePt centroid)]
    | _ => []
  | .topoEdge =>
    match r with
    | .edge parent idx midPoint =>
      [("ParentFeatureID", .str parent), ("TopologyIndex", .int idx),
       ("MidPoint", triplePt midPoint)]
    | _ => []
  | .topoVertex =>
    match r with
    | .vertex parent idx pos =>
      [("ParentFeatureID", .str parent), ("TopologyIndex", .int idx),
       ("Position", triplePt pos)]
    | _ => []
  | .topoSketchSeg =>
    match r with
    | .sketchSeg parent idx lid =>
      [("ParentFeatureID", .str parent), ("TopologyIndex", .int idx)] ++
        (if lid ≠ "" then [("SegmentLocalID", .str lid)] else [])
    | _ => []

/-- `TinyXMLSerializer::SaveRefEntity` on a non-null reference: a fresh
element carrying the entry's attributes and the `Type` tag.  Every
`RefType` has a table entry, so the unknown-tag fallback branch is
unreachable. -/
def SaveRefEntityElem (elemName : String) (r : CRefEntity) : XElem :=
  { name := elemName
    attrs := refEntrySave r.refTypeOf r ++
      [("Type", .str (RefTypeToString r.refTypeOf))]
    children := [] }

/-- `SaveRefEntity` including the early return on a null pointer: the
child element list this call contributes to the parent. -/
def saveRefChild (elemName : String) : Option CRefEntity → List XElem
  | none => []
  | some r => [SaveRefEntityElem elemName r]

/-- `LoadFeatureReference`: a fresh `CRefFeature` of the given tag whose
target ID is the `TargetFeatureID` attribute when present. -/
def LoadFeatureReference (e : XElem) (t : RefType) : CRefEntity :=
  .refFeature t ((attrStr e "TargetFeatureID").getD "")

/-- The `load` lambda of the `kRefSerializerEntries` entry for a tag.
Defaults mirror the class member initializers: empty strings, topology
index `-1`, and `ParsePointAttribute` / `ParseVectorAttribute` zeros
when an attribute is absent. -/
def refEntryLoad (t : RefType) (e : XElem) : CRefEntity :=
  match t with
  | .featureDatumPlane =>
    let origin := ParsePointAttribute e "Origin"
    let xDir := ParseVectorAttribute e "XDir"
    let normal := ParseVectorAttribute e "Normal"
    let yDir :=
      match e.getAttr "YDir" with
      | some _ => ParseVectorAttribute e "YDir"
      | none => ComputePlaneYAxis normal xDir
    .plane ((attrStr e "TargetFeatureID").getD "") origin xDir yDir normal
  | .featureDatumAxis => LoadFeatureReference e .featureDatumAxis
  | .featureDatumPoint => LoadFeatureReference e .featureDatumPoint
  | .featureWholeSketch =>
    .sketchRef ((attrStr e "TargetFeatureID").getD "")
  | .topoFace =>
    .face ((attrStr e "ParentFeatureID").getD "")
      (queryInt e "TopologyIndex" (-1))
      (ParseVectorAttribute e "Normal") (ParsePointAttribute e "Center")
      (ParseVectorAttribute e "U") (ParseVectorAttribute e "V")
  | .topoEdge =>
    .edge ((attrStr e "ParentFeatureID").getD "")
      (queryInt e "TopologyIndex" (-1)) (ParsePointAttribute e "MidPoint")
  | .topoVertex =>
    .vertex ((attrStr e "ParentFeatureID").getD "")
      (queryInt e "TopologyIndex" (-1)) (ParsePointAttribute e "Position")
  | .topoSketchSeg =>
    .sketchSeg ((attrStr e "ParentFeatureID").getD "")
      (queryInt e "TopologyIndex" (-1))
      ((attrStr e "SegmentLocalID").getD "")

/-- `TinyXMLSerializer::LoadRefEntity`.  A missing element or missing
`Type` attribute yields null.  Every recognized tag has a table entry,
so the dead datum-axis/point fallback inside the source is collapsed;
the final `ref->refType = *resolvedType` assignment is the identity on
what the entries produce.  An unrecognized tag other than the literal
`feature` fallback yields null. -/
def LoadRefEntity (e? : Option XElem) : Option CRefEntity :=
  match e? with
  | none => none
  | some e =>
    match attrStr e "Type" with
    | none => none
    | some typeStr =>
      match RefTypeFromString (some typeStr) with
      | some t => some (refEntryLoad t e)
      | none =>
        if ToLower typeStr = "feature" then
          some (LoadFeatureReference e .featureDatumPlane)
        else none

/-! ## Feature serialization (`src/TinyXMLSerializer.cpp`) -/

/-- `TinyXMLSerializer::SaveSketchSeg` on a non-null segment (the
`Construction` attribute is skipped for point segments). -/
def SaveSketchSeg (seg : CSketchSeg) : XElem :=
  match seg with
  | .line lid cons startPos endPos =>
    { name := "Segment"
      attrs := [("LocalID", .str lid), ("Construction", .bool cons),
        ("Type", .str "Line"), ("Start", triplePt startPos),
        ("End", triplePt endPos)]
      children := [] }
  | .circle lid cons center radius =>
    { name := "Segment"
      attrs := [("LocalID", .str lid), ("Construction", .bool cons),
        ("Type", .str "Circle"), ("Center", triplePt center),
        ("Radius", .num radius)]
      children := [] }
  | .arc lid cons center radius startAngle endAngle clockwise =>
    { name := "Segment"
      attrs := [("LocalID", .str lid), ("Construction", .bool cons),
        ("Type", .str "Arc"), ("Center", triplePt center),
        ("Radius", .num radius), ("StartAngle", .num startAngle),
        ("EndAngle", .num endAngle), ("Clockwise", .bool clockwise)]
      children := [] }
  | .point lid _ pos =>
    { name := "Segment"
      attrs := [("LocalID", .str lid), ("Type", .str "Point"),
        ("Position", triplePt pos)]
      children := [] }

/-- The comma join written for `Entities` by `SaveConstraint`. -/
def joinIDs (ids : List String) : String := String.intercalate "," ids

/-- Split a character list at commas, keeping every field (the
recursion carries the current field in reverse). -/
def splitFields : List Char → List Char → List String
  | [], acc => [⟨acc.reverse⟩]
  | c :: rest, acc =>
    if c = ',' then ⟨acc.reverse⟩ :: splitFields rest []
    else splitFields rest (c :: acc)

/-- The comma split performed by `LoadConstraint`'s `std::getline`
loop: no items from the empty string, interior empties kept, and the
field after a trailing comma not produced (`getline` fails at
end-of-stream). -/
def splitIDs (s : String) : List String :=
  if s = "" then []
  else
    let fields := splitFields s.data []
    match s.data.getLast? with
    | some c => if c = ',' then fields.dropLast else fields
    | none => fields

/-- `TinyXMLSerializer::SaveConstraint`. -/
def SaveConstraint (c : CSketchConstraint) : XElem :=
  { name := "Constraint"
    attrs := [("Type", .int c.type), ("Dimension", .num c.dimensionValue),
      ("Entities", .str (joinIDs c.entityLocalIDs))]
    children := [] }

/-- `TinyXMLSerializer::LoadConstraint`. -/
def LoadConstraint (e : XElem) : CSketchConstraint :=
  { type := queryInt e "Type" 0
    dimensionValue := queryDouble e "Dimension" 0
    entityLocalIDs :=
      match attrStr e "Entities" with
      | some s => splitIDs s
      | none => [] }

/-- `TinyXMLSerializer::LoadSketchSeg`: only `Line` and `Circle` are
reconstructed; `Arc`, `Point` and anything else fall through the
`// ... others` comment and yield null. -/
def LoadSketchSeg (e : XElem) : Option CSketchSeg :=
  match attrStr e "Type" with
  | none => none
  | some type =>
    let lid := (attrStr e "LocalID").getD ""
    let cons := queryBool e "Construction" false
    if type = "Line" then
      some (.line lid cons (ParsePointAttribute e "Start")
        (ParsePointAttribute e "End"))
    else if type = "Circle" then
      some (.circle lid cons (ParsePointAttribute e "Center")
        (queryDouble e "Radius" 0))
    else none

/-- `TinyXMLSerializer::SaveSketch`: the optional reference plane, then
the `Segments` and `Constraints` containers. -/
def SaveSketchChildren (s : CSketch) : List XElem :=
  saveRefChild "ReferencePlane" s.referencePlane ++
    [{ name := "Segments", attrs := []
       children := s.segments.map SaveSketchSeg },
     { name := "Constraints", attrs := []
       children := s.constraints.map SaveConstraint }]

/-- `TinyXMLSerializer::LoadSketch`. -/
def LoadSketch (e : XElem) : CSketch :=
  { referencePlane := LoadRefEntity (e.firstChild "ReferencePlane")
    segments :=
      match e.firstChild "Segments" with
      | some segs => (segs.childrenNamed "Segment").filterMap LoadSketchSeg
      | none => []
    constraints :=
      match e.firstChild "Constraints" with
      | some cons => (cons.childrenNamed "Constraint").map LoadConstraint
      | none => [] }

/-- `TinyXMLSerializer::SaveExtrude`: children of the feature element
(the `Operation` attribute is returned separately, since it sits on the
feature element itself). -/
def SaveExtrudeChildren (ex : CExtrude) : List XElem :=
  (match ex.sketchProfile with
   | some profile =>
     [{ name := "ProfileSketchID"
        attrs := [("Value", .str profile.base.featureID)]
        children := [] }]
   | none => []) ++
  [{ name := "Direction", attrs := [("Value", tripleVec ex.direction)]
     children := [] }] ++
  [{ name := "EndCondition1"
     attrs := [("Type", .str (EndConditionTypeToString ex.endCondition1.type)),
       ("Depth", .num ex.endCondition1.depth),
       ("Offset", .num ex.endCondition1.offset),
       ("HasOffset", .bool ex.endCondition1.hasOffset),
       ("Flip", .bool ex.endCondition1.isFlip),
       ("FlipMaterialSide", .bool ex.endCondition1.isFlipMaterialSide)]
     children := saveRefChild "ReferenceEntity"
       ex.endCondition1.referenceEntity }] ++
  (match ex.endCondition2 with
   | some c =>
     [{ name := "EndCondition2"
        attrs := [("Type", .str (EndConditionTypeToString c.type)),
          ("Depth", .num c.depth), ("HasOffset", .bool c.hasOffset),
          ("Offset", .num c.offset)]
        children := [] }]
   | none => [])

/-- `TinyXMLSerializer::LoadExtrude`.  The profile is rebuilt as a
fresh placeholder `CSketch` carrying only the persisted ID; only the
end-condition `Type` and `Depth` attributes are read back (the source
stops at a `// ...` comment). -/
def LoadExtrude (e : XElem) : CExtrude :=
  let profile : Option CSketch :=
    match e.firstChild "ProfileSketchID" with
    | some pe =>
      match attrStr pe "Value" with
      | some v => some { base := { featureID := v } }
      | none => none
    | none => none
  let dir : CVector3D :=
    match e.firstChild "Direction" with
    | some de => ParseVectorAttribute de "Value"
    | none => ⟨0, 0, 1⟩
  let op : BooleanOp :=
    match BooleanOpFromString (attrStr e "Operation") with
    | some o => o
    | none => .boss
  let ec1 : ExtrudeEndCondition :=
    match e.firstChild "EndCondition1" with
    | some c =>
      { type := (EndConditionTypeFromString (attrStr c "Type")).getD .blind
        depth := queryDouble c "Depth" 0 }
    | none => {}
  let ec2 : Option ExtrudeEndCondition :=
    match e.firstChild "EndCondition2" with
    | some c =>
      some { type := (EndConditionTypeFromString (attrStr c "Type")).getD .blind
             depth := queryDouble c "Depth" 0 }
    | none => none
  { sketchProfile := profile, direction := dir, operation := op
    endCondition1 := ec1, endCondition2 := ec2 }

/-- `TinyXMLSerializer::SaveRevolve`: attributes on the feature element
plus the `Axis` child. -/
def SaveRevolveAttrs (rv : CRevolve) : List (String × AttrVal) :=
  [("ProfileSketchID", .str rv.profileSketchID),
   ("AngleKind", .int rv.angleKind.toInt),
   ("PrimaryAngle", .num rv.primaryAngle),
   ("SecondaryAngle", .num rv.secondaryAngle)]

/-- The `Axis` child written by `SaveRevolve`. -/
def SaveRevolveAxisElem (rv : CRevolve) : XElem :=
  { name := "Axis"
    attrs := [("Kind", .int rv.axis.kind.toInt),
      ("RefLocalID", .str rv.axis.referenceLocalID),
      ("Origin", triplePt rv.axis.origin),
      ("Direction", tripleVec rv.axis.direction)]
    children := saveRefChild "ReferenceEntity" rv.axis.referenceEntity }

/-- `TinyXMLSerializer::LoadRevolve`: the body is empty (the source
says `Implementation similar to Extrude` but does nothing), so the
feature keeps every default. -/
def LoadRevolve (_ : XElem) : CRevolve := {}

/-- `TinyXMLSerializer::SaveFeature` on a non-null feature: the `Type`
attribute and type-specific payload, then `ID`, `Name`, `Suppressed`. -/
def SaveFeature (f : CFeature) : XElem :=
  let baseAttrs : List (String × AttrVal) :=
    [("ID", .str f.base.featureID), ("Name", .str f.base.featureName),
     ("Suppressed", .bool f.base.isSuppressed)]
  match f with
  | .sketch s =>
    { name := "Feature"
      attrs := [("Type", .str "Sketch")] ++ baseAttrs
      children := SaveSketchChildren s }
  | .extrude ex =>
    { name := "Feature"
      attrs := [("Type", .str "Extrude"),
        ("Operation", .str (BooleanOpToString ex.operation))] ++ baseAttrs
      children := SaveExtrudeChildren ex }
  | .revolve rv =>
    { name := "Feature"
      attrs := [("Type", .str "Revolve")] ++ SaveRevolveAttrs rv ++ baseAttrs
      children := [SaveRevolveAxisElem rv] }

/-- The base identity attributes `LoadFeature` reads back on success:
`ID` and `Name` when present, `Suppressed` via `QueryBoolAttribute`
into a `false`-initialized local (`externalID` is never persisted). -/
def loadedBase (e : XElem) : CFeatureBase :=
  { featureID := (attrStr e "ID").getD ""
    featureName := (attrStr e "Name").getD ""
    isSuppressed := queryBool e "Suppressed" false }

/-- `TinyXMLSerializer::LoadFeature`: dispatch on the `Type` attribute
(`Sketch` / `Extrude` / `Revolve`); anything else, or a missing `Type`,
yields null.  On success the base identity attributes are read back. -/
def LoadFeature (e : XElem) : Option CFeature :=
  match attrStr e "Type" with
  | none => none
  | some type =>
    let base : CFeatureBase := loadedBase e
    if type = "Sketch" then
      some (.sketch { LoadSketch e with base := base })
    else if type = "Extrude" then
      some (.extrude { LoadExtrude e with base := base })
    else if type = "Revolve" then
      some (.revolve { LoadRevolve e with base := base })
    else none

/-! ## Whole-document serialization (`Save` / `Load`) -/

/-- `TinyXMLSerializer::Save`: the `UnifiedModel` root element.  The
subsequent `SaveFile` call is filesystem I/O outside this embedding;
the document content is fully determined here. -/
def Save (m : UnifiedModel) : XElem :=
  { name := "UnifiedModel"
    attrs := [("UnitSystem", .str (UnitTypeToString m.unit)),
      ("ModelName", .str m.modelName),
      ("FeatureCount", .int m.features.length)]
    children := m.features.map SaveFeature }

/-- `TinyXMLSerializer::Load`.  The input is `none` when `LoadFile`
fails (unreadable file), otherwise the document's top-level element
list.  Returns the success flag and the resulting destination model:
on failure the destination is returned untouched; on success the unit
is updated when the attribute parses, the name when present, the model
is cleared, and each decodable `Feature` child is added in order. -/
def Load (m : UnifiedModel) (doc : Option (List XElem)) :
    Bool × UnifiedModel :=
  match doc with
  | none => (false, m)
  | some elems =>
    match elems.find? (fun e => e.name = "UnifiedModel") with
    | none => (false, m)
    | some root =>
      let m1 :=
        match UnitTypeFromString (attrStr root "UnitSystem") with
        | some u => { m with unit := u }
        | none => m
      let m2 :=
        match attrStr root "ModelName" with
        | some n => { m1 with modelName := n }
        | none => m1
      let m3 := m2.Clear
      let m4 := (root.childrenNamed "Feature").foldl
        (fun acc fe => acc.AddFeature (LoadFeature fe)) m3
      (true, m4)

/-! ## Construction builders (`builders/ExtrudeBuilder.h`,
`service/builders/FeatureBuilderBase.h`,
`service/builders/SketchBuilder.h`)

A C++ builder holds a reference to the model and the feature under
construction; an exception unwinds before any mutation.  Each method is
embedded as a function returning `Except String` of its result, with the
model passed explicitly; a `.error` result is a thrown exception, at
which point the model still has the value that went in (none of these
methods writes to the model before throwing — only `Build` calls
`AddFeature`). -/

/-- `ExtrudeBuilder::SetProfile`: look the sketch up by ID (including
the `dynamic_pointer_cast` to `CSketch`); throw when it is absent. -/
def ExtrudeBuilder.SetProfile (m : UnifiedModel) (f : CExtrude)
    (sketchID : String) : Except String CExtrude :=
  match m.GetFeatureAsSketch sketchID with
  | none => .error ("Sketch profile not found: " ++ sketchID)
  | some sk => .ok { f with sketchProfile := some sk }

/-- `FeatureBuilderBase::ValidateReference`.  Datum plane, axis and
point references whose target is neither a standard ID nor a feature of
the model make the builder throw, naming the missing ID.  The
`dynamic_pointer_cast` to `CRefPlane` matches the `plane` constructor;
the casts to `CRefAxis` / `CRefPoint` (classes whose definitions are not
in the repository's sources) are modelled as matching axis/point-tagged
feature references, the shape the spec's §3 gives those variants.
Every other reference passes. -/
def ValidateReference (m : UnifiedModel) (ref : Option CRefEntity) :
    Except String Unit :=
  match ref with
  | none => .ok ()
  | some (.plane tid _ _ _ _) =>
    if ¬StandardID.IsStandardPlane tid ∧ m.GetFeature tid = none then
      .error ("Reference plane feature not found in model: " ++ tid)
    else .ok ()
  | some (.refFeature .featureDatumAxis tid) =>
    if ¬StandardID.IsStandardAxis tid ∧ m.GetFeature tid = none then
      .error ("Reference axis feature not found in model: " ++ tid)
    else .ok ()
  | some (.refFeature .featureDatumPoint tid) =>
    if ¬StandardID.IsStandardPoint tid ∧ m.GetFeature tid = none then
      .error ("Reference point feature not found in model: " ++ tid)
    else .ok ()
  | some _ => .ok ()

/-- `SketchBuilder::SetReferencePlane`: reject a null reference, then
validate it, then store it. -/
def SketchBuilder.SetReferencePlane (m : UnifiedModel) (f : CSketch)
    (ref : Option CRefEntity) : Except String CSketch :=
  match ref with
  | none => .error "Reference plane cannot be null"
  | some r =>
    match ValidateReference m (some r) with
    | .error msg => .error msg
    | .ok _ => .ok { f with referencePlane := some r }

/-- The construction chain
`ExtrudeBuilder(model, name).SetProfile(sketchID).Build()`:
the base-class constructor makes a fresh feature carrying the given
name and a generated UUID, `SetProfile` resolves the profile, and only
`Build` registers the feature via `AddFeature`.  When `SetProfile`
throws, `Build` is never reached and the model is the one that went
in. -/
def BuildExtrudeWithProfile (m : UnifiedModel) (name uuid : String)
    (sketchID : String) : Except String UnifiedModel :=
  let fresh : CExtrude :=
    { base := { featureID := uuid, featureName := name }
      direction := ⟨0, 0, 1⟩ }
  match ExtrudeBuilder.SetProfile m fresh sketchID with
  | .error msg => .error msg
  | .ok f => .ok (m.AddFeature (some (.extrude f)))

/-! ## Claim-support definitions -/

/-- A model built by a sequence of `AddFeature` calls starting from a
default-constructed `UnifiedModel` — the reachable states of the
container under its construction interface. -/
def buildModel (ops : List (Option CFeature)) : UnifiedModel :=
  ops.foldl UnifiedModel.AddFeature {}

/-- An index contains exactly the features of a list, read literally
from the claim: every indexed feature is in the list and every listed
feature is indexed. -/
def containsExactly (idx : List (String × CFeature))
    (fs : List CFeature) : Prop :=
  (∀ p ∈ idx, p.2 ∈ fs) ∧ (∀ f ∈ fs, ∃ p ∈ idx, p.2 = f)

/-- The invariant exactly as the claim states it: non-empty IDs, no two
features share a `featureID`, and both indexes contain exactly the
features present in the feature list. -/
def ModelInv (m : UnifiedModel) : Prop :=
  (∀ f ∈ m.features, f.base.featureID ≠ "") ∧
  m.features.Pairwise (fun f g => f.base.featureID ≠ g.base.featureID) ∧
  containsExactly m.index m.features ∧
  containsExactly m.externalIndex m.features

/-- The amended invariant: as `ModelInv`, except that the external-ID
index contains exactly the features with a non-empty `externalID`, and
both indexes are keyed by the corresponding ID field. -/
def ModelWF (m : UnifiedModel) : Prop :=
  (∀ f ∈ m.features, f.base.featureID ≠ "") ∧
  m.features.Pairwise (fun f g => f.base.featureID ≠ g.base.featureID) ∧
  (∀ p ∈ m.index, p.1 = p.2.base.featureID ∧ p.2 ∈ m.features) ∧
  (∀ f ∈ m.features, (f.base.featureID, f) ∈ m.index) ∧
  (∀ p ∈ m.externalIndex,
    p.1 = p.2.base.externalID ∧ p.2 ∈ m.features ∧
      p.2.base.externalID ≠ "") ∧
  (∀ f ∈ m.features, f.base.externalID ≠ "" →
    (f.base.externalID, f) ∈ m.externalIndex)

/-- The placeholder sketch `LoadExtrude` fabricates for a persisted
profile ID: a default-constructed `CSketch` whose `featureID` is the
ID string — no reference plane, no segments, no constraints. -/
def placeholderSketch (id : String) : CSketch :=
  { base := { featureID := id } }

/-- The reference shapes denoted by the eight serializer kinds: each
kind's concrete class, where a datum-axis or datum-point reference is a
`CRefFeature` carrying the corresponding tag (the shape the spec's §3
gives those variants and the shape the serializer itself produces). -/
def refKindShape (r : CRefEntity) : Prop :=
  match r with
  | .refFeature t _ =>
    t = RefType.featureDatumAxis ∨ t = RefType.featureDatumPoint
  | _ => True

/-- A model holding a single revolve feature with a 45-degree primary
angle — an instance of the public construction API's output. -/
def revolveDemoModel : UnifiedModel :=
  { features := [.revolve
      { base := { featureID := "R1", featureName := "Rev" }
        primaryAngle := 45 }] }

/-- A document whose only feature element carries the unknown type tag
`Widget`. -/
def widgetFeatureElem : XElem :=
  { name := "Feature", attrs := [("Type", .str "Widget")], children := [] }

/-- The document root holding `widgetFeatureElem`. -/
def widgetFeatureDoc : XElem :=
  { name := "UnifiedModel", attrs := [], children := [widgetFeatureElem] }

/-- An extrude feature element whose `Operation` attribute holds a token
outside the closed vocabulary. -/
def unknownOpExtrudeElem : XElem :=
  { name := "Feature"
    attrs := [("Type", .str "Extrude"), ("Operation", .str "Frobnicate")]
    children := [] }

/-- An extrude feature element persisting profile ID `S1`, next to the
`Sketch` feature element it names, holding one line segment. -/
def demoProfileChild : XElem :=
  { name := "ProfileSketchID", attrs := [("Value", .str "S1")]
    children := [] }

/-- The extrude feature element of the demo document. -/
def demoExtrudeElem : XElem :=
  { name := "Feature"
    attrs := [("Type", .str "Extrude"), ("ID", .str "E1")]
    children := [demoProfileChild] }

/-! ## Theorems settling the claims -/

/-- Claim C3: for each of the 8 reference kinds (DatumPlane, DatumAxis,
DatumPoint, WholeSketch, Face, Edge, Vertex, SketchSegment) and every
reference entity of that kind, decoding the element produced by
encoding it yields the reference back: same tag, same target or parent
feature ID, same topology index and segment-local ID, and the same
geometric fingerprint values (here exactly, which is within the §3
tolerance). -/
theorem C3_ref_decode_encode (elemName : String) (r : CRefEntity)
    (h : refKindShape r) :
    LoadRefEntity (some (SaveRefEntityElem elemName r)) = some r := by
  cases r with
  | refFeature t tid => rcases h with h | h <;> subst h <;> rfl
  | plane tid origin xDir yDir normal => rfl
  | sketchRef tid => rfl
  | face parent idx normal centroid uDir vDir => rfl
  | edge parent idx midPoint => rfl
  | vertex parent idx pos => rfl
  | sketchSeg parent idx lid =>
    by_cases hl : lid = ""
    · subst hl; rfl
    · have hsave : refEntrySave RefType.topoSketchSeg
          (.sketchSeg parent idx lid) =
          [("ParentFeatureID", AttrVal.str parent),
           ("TopologyIndex", AttrVal.int idx),
           ("SegmentLocalID", AttrVal.str lid)] := by
        simp [refEntrySave, hl]
      simp only [SaveRefEntityElem, CRefEntity.refTypeOf, hsave]
      rfl

/-- Witness for C3: the round trip evaluated at a concrete datum-plane
reference. -/
theorem C3_ref_decode_encode_witness :
    LoadRefEntity (some (SaveRefEntityElem "ReferenceEntity"
        (.plane "P1" ⟨1, 2, 3⟩ ⟨1, 0, 0⟩ ⟨0, 1, 0⟩ ⟨0, 0, 1⟩))) =
      some (.plane "P1" ⟨1, 2, 3⟩ ⟨1, 0, 0⟩ ⟨0, 1, 0⟩ ⟨0, 0, 1⟩) :=
  C3_ref_decode_encode "ReferenceEntity" _ trivial

/-- Claim C2: decoding an Extrude feature element with a
`ProfileSketchID` child yields an extrude whose `sketchProfile` is a
freshly fabricated sketch carrying only the persisted ID — no segments
and no constraints — so it differs from every sketch with any content,
in particular from a same-ID sketch stored in the loaded model; no
second resolution pass exists in `Load`. -/
theorem C2_extrude_profile_placeholder (e pe : XElem) (v : String)
    (hType : attrStr e "Type" = some "Extrude")
    (hChild : e.firstChild "ProfileSketchID" = some pe)
    (hVal : attrStr pe "Value" = some v) :
    LoadFeature e =
      some (.extrude { LoadExtrude e with base := loadedBase e }) ∧
    (LoadExtrude e).sketchProfile = some (placeholderSketch v) ∧
    (placeholderSketch v).segments = [] ∧
    (placeholderSketch v).constraints = [] ∧
    ∀ s : CSketch, s.segments ≠ [] ∨ s.constraints ≠ [] →
      (LoadExtrude e).sketchProfile ≠ some s := by
  have hprof : (LoadExtrude e).sketchProfile = some (placeholderSketch v) := by
    simp [LoadExtrude, hChild, hVal, placeholderSketch]
  refine ⟨?_, hprof, rfl, rfl, ?_⟩
  · simp [LoadFeature, hType]
  · intro s hs hcontra
    rw [hprof] at hcontra
    have hsv : placeholderSketch v = s := Option.some.inj hcontra
    rcases hs with hs | hs <;> rw [← hsv] at hs <;> exact hs rfl

/-- Witness for C2: the placeholder behaviour evaluated on a concrete
extrude element persisting profile ID `S1`. -/
theorem C2_extrude_profile_placeholder_witness :
    (LoadExtrude demoExtrudeElem).sketchProfile =
      some (placeholderSketch "S1") :=
  (C2_extrude_profile_placeholder demoExtrudeElem demoProfileChild "S1"
    rfl rfl rfl).2.1

/-- Claim C4 (code bug): the claim requires an unknown feature type tag
or enum token to fail the load as a malformed document; instead the
code returns success while silently skipping the unknown feature
(`LoadFeature` yields null and `Load` moves on), and an unknown
`Operation` token outside the closed vocabulary is coerced to the
default `BOSS`. -/
theorem C4_unknown_tokens_not_rejected :
    Load {} (some [widgetFeatureDoc]) = (true, ({} : UnifiedModel)) ∧
    LoadFeature widgetFeatureElem = none ∧
    BooleanOpFromString (some "Frobnicate") = none ∧
    (LoadExtrude unknownOpExtrudeElem).operation = BooleanOp.boss ∧
    UnitTypeFromString (some "Parsec") = none := by
  refine ⟨by decide, by decide, by decide, by decide, by decide⟩

/-- Claim C1 (code bug): `Load(Save(M))` does not reproduce `M` even
within the §3 tolerance — a revolve's entire payload is dropped on load
(`LoadRevolve` is an empty stub), so a 45-degree primary angle comes
back as `0`, which is not within `1e-6` of `45`. -/
theorem C1_roundtrip_fails :
    (Load {} (some [Save revolveDemoModel])).1 = true ∧
    (Load {} (some [Save revolveDemoModel])).2.features =
      [.revolve { base := { featureID := "R1", featureName := "Rev" } }] ∧
    (Load {} (some [Save revolveDemoModel])).2.features ≠
      revolveDemoModel.features ∧
    ¬ qNear (0 : ℚ) 45 := by
  refine ⟨by decide, by decide, by decide, ?_⟩
  intro habs
  rw [qNear, EPSILON] at habs
  norm_num at habs

/-- Claim C5 (counterexample): the claimed invariant does hold for the
empty model, but it is not preserved by `AddFeature` — adding a feature
whose `featureID` is empty succeeds and leaves the model violating the
non-empty-ID clause (and, its `externalID` being empty too, the
external-index-exactness clause). -/
theorem C5_invariant_not_preserved :
    ModelInv ({} : UnifiedModel) ∧
    ¬ ModelInv (UnifiedModel.AddFeature {}
      (some (.sketch { base := { featureID := "" } }))) := by
  constructor
  · refine ⟨?_, List.Pairwise.nil, ⟨?_, ?_⟩, ⟨?_, ?_⟩⟩
    · intro f hf; exact absurd hf (List.not_mem_nil f)
    · intro p hp; exact absurd hp (List.not_mem_nil p)
    · intro f hf; exact absurd hf (List.not_mem_nil f)
    · intro p hp; exact absurd hp (List.not_mem_nil p)
    · intro f hf; exact absurd hf (List.not_mem_nil f)
  · intro h
    exact h.1 (.sketch { base := { featureID := "" } })
      (by simp [UnifiedModel.AddFeature]) rfl

/-- Claim C5 (amended): the amended invariant — non-empty unique
feature IDs, the ID index holding exactly the listed features keyed by
their `featureID`, and the external index holding exactly the features
with a non-empty `externalID` keyed by it — holds for the empty model,
is preserved by `Clear`, and is preserved by `AddFeature` whenever the
added feature's `featureID` is non-empty and fresh and its `externalID`
is empty or fresh. -/
theorem C5_amended_invariant :
    ModelWF ({} : UnifiedModel) ∧
    (∀ m : UnifiedModel, ModelWF m.Clear) ∧
    (∀ (m : UnifiedModel) (f : CFeature), ModelWF m →
      f.base.featureID ≠ "" →
      (∀ g ∈ m.features, g.base.featureID ≠ f.base.featureID) →
      (f.base.externalID = "" ∨
        ∀ g ∈ m.features, g.base.externalID ≠ f.base.externalID) →
      ModelWF (m.AddFeature (some f))) := by
  have hempty : ∀ m : UnifiedModel,
      m.features = [] → m.index = [] → m.externalIndex = [] → ModelWF m := by
    intro m hf hi he
    refine ⟨?_, ?_, ?_, ?_, ?_, ?_⟩
    · intro f hmem; rw [hf] at hmem; exact absurd hmem (List.not_mem_nil f)
    · rw [hf]; exact List.Pairwise.nil
    · intro p hp; rw [hi] at hp; exact absurd hp (List.not_mem_nil p)
    · intro f hmem; rw [hf] at hmem; exact absurd hmem (List.not_mem_nil f)
    · intro p hp; rw [he] at hp; exact absurd hp (List.not_mem_nil p)
    · intro f hmem; rw [hf] at hmem; exact absurd hmem (List.not_mem_nil f)
  refine ⟨hempty {} rfl rfl rfl, fun m => hempty m.Clear rfl rfl rfl, ?_⟩
  intro m f hWF hID hFresh hExt
  obtain ⟨h1, h2, h3, h4, h5, h6⟩ := hWF
  -- the new ID is not a key of the primary index
  have hkey : ¬ m.index.any (fun p => p.1 = f.base.featureID) = true := by
    intro hany
    obtain ⟨p, hp, hpk⟩ := List.any_eq_true.mp hany
    obtain ⟨hk, hmem⟩ := h3 p hp
    exact hFresh p.2 hmem (by rw [← hk]; exact of_decide_eq_true hpk)
  have hidx : mapInsert m.index f.base.featureID f =
      m.index ++ [(f.base.featureID, f)] := by
    rw [mapInsert, if_neg hkey]
  have hfeat : (m.AddFeature (some f)).features = m.features ++ [f] := rfl
  refine ⟨?_, ?_, ?_, ?_, ?_, ?_⟩
  · intro g hg
    rw [hfeat] at hg
    rcases List.mem_append.mp hg with hg | hg
    · exact h1 g hg
    · rw [List.mem_singleton.mp hg]; exact hID
  · rw [hfeat]
    refine List.pairwise_append.mpr ⟨h2, List.pairwise_singleton _ _, ?_⟩
    intro a ha b hb
    rw [List.mem_singleton.mp hb]
    exact hFresh a ha
  · intro p hp
    rw [show (m.AddFeature (some f)).index =
        m.index ++ [(f.base.featureID, f)] from hidx] at hp
    rcases List.mem_append.mp hp with hp | hp
    · obtain ⟨hk, hmem⟩ := h3 p hp
      exact ⟨hk, by rw [hfeat]; exact List.mem_append_left _ hmem⟩
    · rw [List.mem_singleton.mp hp]
      exact ⟨rfl, by rw [hfeat]; exact List.mem_append_right _ (by simp)⟩
  · intro g hg
    rw [show (m.AddFeature (some f)).index =
      m.index ++ [(f.base.featureID, f)] from hidx]
    rw [hfeat] at hg
    rcases List.mem_append.mp hg with hg | hg
    · exact List.mem_append_left _ (h4 g hg)
    · rw [List.mem_singleton.mp hg]
      exact List.mem_append_right _ (by simp)
  all_goals {
    by_cases hemp : f.base.externalID = ""
    case pos =>
      have hext : (m.AddFeature (some f)).externalIndex = m.externalIndex := by
        simp [UnifiedModel.AddFeature, hemp]
      first
      | -- the entries clause: old entries stay valid in the grown list
        (intro p hp
         rw [hext] at hp
         obtain ⟨hk, hmem, hne⟩ := h5 p hp
         exact ⟨hk, by rw [hfeat]; exact List.mem_append_left _ hmem, hne⟩)
      | -- the coverage clause: the new feature has an empty external ID
        (intro g hg hge
         rw [hext, hfeat] at *
         rcases List.mem_append.mp hg with hg | hg
         · exact h6 g hg hge
         · rw [List.mem_singleton.mp hg] at hge; exact absurd hemp hge)
    case neg =>
      have hkeyE : ¬ m.externalIndex.any
          (fun p => p.1 = f.base.externalID) = true := by
        intro hany
        obtain ⟨p, hp, hpk⟩ := List.any_eq_true.mp hany
        obtain ⟨hk, hmem, _⟩ := h5 p hp
        rcases hExt with hExt | hExt
        · exact hemp hExt
        · exact hExt p.2 hmem (by rw [← hk]; exact of_decide_eq_true hpk)
      have hext : (m.AddFeature (some f)).externalIndex =
          m.externalIndex ++ [(f.base.externalID, f)] := by
        simp only [UnifiedModel.AddFeature, hemp, ne_eq,
          not_false_iff, if_true]
        rw [mapInsert, if_neg hkeyE]
      first
      | (intro p hp
         rw [hext] at hp
         rcases List.mem_append.mp hp with hp | hp
         · obtain ⟨hk, hmem, hne⟩ := h5 p hp
           exact ⟨hk, by rw [hfeat]; exact List.mem_append_left _ hmem, hne⟩
         · rw [List.mem_singleton.mp hp]
           exact ⟨rfl,
             by rw [hfeat]; exact List.mem_append_right _ (by simp), hemp⟩)
      | (intro g hg hge
         rw [hext]
         rw [hfeat] at hg
         rcases List.mem_append.mp hg with hg | hg
         · exact List.mem_append_left _ (h6 g hg hge)
         · rw [List.mem_singleton.mp hg]
           exact List.mem_append_right _ (by simp)) }

/-- Witness for C5's amended statement: the amended invariant holds
after adding one well-formed feature to the empty model. -/
theorem C5_amended_invariant_witness :
    ModelWF (UnifiedModel.AddFeature {}
      (some (.sketch { base := { featureID := "S1" } }))) :=
  C5_amended_invariant.2.2 {} _ C5_amended_invariant.1 (by decide)
    (fun g hg => absurd hg (List.not_mem_nil g)) (Or.inl rfl)

/-- A report that is already invalid stays invalid for the rest of the
validation walk. -/
theorem validate_foldl_invalid (fs : List CFeature)
    (rep : ValidationReport) (h : rep.isValid = false) :
    (fs.foldl UnifiedModel.validateStep rep).isValid = false := by
  induction fs generalizing rep with
  | nil => exact h
  | cons a fs ih =>
    apply ih
    unfold UnifiedModel.validateStep
    split
    · rfl
    · exact h

/-- The validation walk appends exactly one error per empty-ID feature
it passes. -/
theorem validate_foldl_errors (fs : List CFeature)
    (rep : ValidationReport) :
    (fs.foldl UnifiedModel.validateStep rep).errors.length =
      rep.errors.length +
        (fs.filter (fun f => f.base.featureID = "")).length := by
  induction fs generalizing rep with
  | nil => simp
  | cons a fs ih =>
    rw [List.foldl_cons, ih]
    unfold UnifiedModel.validateStep
    by_cases ha : a.base.featureID = ""
    · rw [if_pos ha]
      simp [List.filter_cons, ha]
      omega
    · rw [if_neg ha]
      simp [List.filter_cons, ha]

/-- One empty-ID feature anywhere in the walk makes the final report
invalid. -/
theorem validate_foldl_has_empty (fs : List CFeature)
    (rep : ValidationReport) (h : ∃ f ∈ fs, f.base.featureID = "") :
    (fs.foldl UnifiedModel.validateStep rep).isValid = false := by
  induction fs generalizing rep with
  | nil =>
    obtain ⟨f, hf, _⟩ := h
    exact absurd hf (List.not_mem_nil f)
  | cons a fs ih =>
    obtain ⟨f, hf, hfe⟩ := h
    rw [List.foldl_cons]
    rcases List.mem_cons.mp hf with rfl | hf
    · apply validate_foldl_invalid
      unfold UnifiedModel.validateStep
      rw [if_pos hfe]
    · exact ih _ ⟨f, hf, hfe⟩

/-- Claim C7: a model whose feature list holds exactly two features
with empty `featureID` (besides any number of well-formed ones)
validates to a report with `isValid = false` and at least two error
entries — validation aggregates and does not stop at the first
problem. -/
theorem C7_validate_aggregates (m : UnifiedModel)
    (h : (m.features.filter (fun f => f.base.featureID = "")).length = 2) :
    m.Validate.isValid = false ∧ 2 ≤ m.Validate.errors.length := by
  constructor
  · apply validate_foldl_has_empty
    have hne : m.features.filter (fun f => f.base.featureID = "") ≠ [] := by
      intro hnil
      rw [hnil] at h
      simp at h
    obtain ⟨f, hf⟩ := List.exists_mem_of_ne_nil _ hne
    have hmem := List.mem_filter.mp hf
    exact ⟨f, hmem.1, of_decide_eq_true hmem.2⟩
  · have := validate_foldl_errors m.features {}
    rw [UnifiedModel.Validate, this, h]
    simp

/-- A model holding two empty-ID features around a well-formed one. -/
def twoEmptyIDModel : UnifiedModel :=
  { features := [.sketch { base := { featureID := "" } },
      .sketch { base := { featureID := "OK1" } },
      .extrude { base := { featureID := "" } }] }

/-- Witness for C7: the aggregation evaluated on a concrete model with
two empty-ID features. -/
theorem C7_validate_aggregates_witness :
    twoEmptyIDModel.Validate.isValid = false ∧
    2 ≤ twoEmptyIDModel.Validate.errors.length :=
  C7_validate_aggregates twoEmptyIDModel (by decide)

/-- Claim C6: a feature under construction whose profile-sketch or
datum plane/axis/point reference names an ID that is absent from the
model (and, for datum references, not a standard constant) makes the
builder fail with an error naming the missing ID — the spec's
`DanglingReference` — before the feature is added, leaving the model as
it was (the failing call never runs `AddFeature`). -/
theorem C6_dangling_reference_rejected :
    (∀ (m : UnifiedModel) (f : CExtrude) (sid : String),
      m.GetFeature sid = none →
      ExtrudeBuilder.SetProfile m f sid =
        .error ("Sketch profile not found: " ++ sid)) ∧
    (∀ (m : UnifiedModel) (tid : String) (o : CPoint3D)
      (x y n : CVector3D),
      ¬ StandardID.IsStandardPlane tid → m.GetFeature tid = none →
      ValidateReference m (some (.plane tid o x y n)) =
        .error ("Reference plane feature not found in model: " ++ tid)) ∧
    (∀ (m : UnifiedModel) (tid : String),
      ¬ StandardID.IsStandardAxis tid → m.GetFeature tid = none →
      ValidateReference m (some (.refFeature .featureDatumAxis tid)) =
        .error ("Reference axis feature not found in model: " ++ tid)) ∧
    (∀ (m : UnifiedModel) (tid : String),
      ¬ StandardID.IsStandardPoint tid → m.GetFeature tid = none →
      ValidateReference m (some (.refFeature .featureDatumPoint tid)) =
        .error ("Reference point feature not found in model: " ++ tid)) ∧
    (∀ (m : UnifiedModel) (name uuid sid : String),
      m.GetFeature sid = none →
      BuildExtrudeWithProfile m name uuid sid =
        .error ("Sketch profile not found: " ++ sid)) := by
  have hset : ∀ (m : UnifiedModel) (f : CExtrude) (sid : String),
      m.GetFeature sid = none →
      ExtrudeBuilder.SetProfile m f sid =
        .error ("Sketch profile not found: " ++ sid) := by
    intro m f sid h
    simp [ExtrudeBuilder.SetProfile, UnifiedModel.GetFeatureAsSketch, h]
  refine ⟨hset, ?_, ?_, ?_, ?_⟩
  · intro m tid o x y n h1 h2
    simp [ValidateReference, h1, h2]
  · intro m tid h1 h2
    simp [ValidateReference, h1, h2]
  · intro m tid h1 h2
    simp [ValidateReference, h1, h2]
  · intro m name uuid sid h
    rw [BuildExtrudeWithProfile, hset m _ sid h]

/-- Witness for C6: the failures evaluated on the empty model and the
absent, non-standard ID `GHOST`. -/
theorem C6_dangling_reference_rejected_witness :
    ExtrudeBuilder.SetProfile {} {} "GHOST" =
      .error "Sketch profile not found: GHOST" ∧
    ValidateReference {} (some (.plane "GHOST" {} {} {} {})) =
      .error "Reference plane feature not found in model: GHOST" ∧
    ValidateReference {} (some (.refFeature .featureDatumAxis "GHOST")) =
      .error "Reference axis feature not found in model: GHOST" ∧
    BuildExtrudeWithProfile {} "E" "U1" "GHOST" =
      .error "Sketch profile not found: GHOST" :=
  ⟨C6_dangling_reference_rejected.1 {} {} "GHOST" rfl,
   C6_dangling_reference_rejected.2.1 {} "GHOST" {} {} {} {}
     (by decide) rfl,
   C6_dangling_reference_rejected.2.2.1 {} "GHOST" (by decide) rfl,
   C6_dangling_reference_rejected.2.2.2.2 {} "E" "U1" "GHOST" rfl⟩

/-- `AddFeature` never inserts an external-index entry with an empty
key. -/
theorem addFeature_extIndex_keys (m : UnifiedModel) (o : Option CFeature)
    (h : ∀ p ∈ m.externalIndex, p.1 ≠ "") :
    ∀ p ∈ (m.AddFeature o).externalIndex, p.1 ≠ "" := by
  cases o with
  | none => exact h
  | some f =>
    by_cases hemp : f.base.externalID = ""
    · simpa [UnifiedModel.AddFeature, hemp] using h
    · intro p hp
      have hext : (m.AddFeature (some f)).externalIndex =
          mapInsert m.externalIndex f.base.externalID f := by
        simp [UnifiedModel.AddFeature, hemp]
      rw [hext, mapInsert] at hp
      by_cases hc : m.externalIndex.any
          (fun q => q.1 = f.base.externalID)
      · rw [if_pos hc] at hp
        obtain ⟨q, hq, hmap⟩ := List.mem_map.mp hp
        by_cases hqk : q.1 = f.base.externalID
        · rw [if_pos hqk] at hmap
          rw [← hmap]
          exact hemp
        · rw [if_neg hqk] at hmap
          rw [← hmap]
          exact h q hq
      · rw [if_neg hc] at hp
        rcases List.mem_append.mp hp with hp | hp
        · exact h p hp
        · rw [List.mem_singleton.mp hp]
          exact hemp

/-- No model reachable through `AddFeature` holds an external-index
entry with an empty key. -/
theorem buildModel_extIndex_keys (ops : List (Option CFeature)) :
    ∀ p ∈ (buildModel ops).externalIndex, p.1 ≠ "" := by
  suffices h : ∀ (ops : List (Option CFeature)) (m : UnifiedModel),
      (∀ p ∈ m.externalIndex, p.1 ≠ "") →
      ∀ p ∈ (ops.foldl UnifiedModel.AddFeature m).externalIndex,
        p.1 ≠ "" by
    exact h ops {} (fun p hp => absurd hp (List.not_mem_nil p))
  intro ops
  induction ops with
  | nil => intro m h; exact h
  | cons o ops ih =>
    intro m h
    exact ih _ (addFeature_extIndex_keys m o h)

/-- Claim C10: `AddFeature` with a null feature leaves the model
unchanged; a feature with an empty `externalID` is never entered into
the external-ID index, so `GetFeatureByExternalID("")` is null on every
model built through `AddFeature`. -/
theorem C10_null_feature_and_empty_externalID :
    (∀ m : UnifiedModel, m.AddFeature none = m) ∧
    (∀ (m : UnifiedModel) (f : CFeature), f.base.externalID = "" →
      (m.AddFeature (some f)).externalIndex = m.externalIndex) ∧
    (∀ ops : List (Option CFeature),
      (buildModel ops).GetFeatureByExternalID "" = none) := by
  refine ⟨fun m => rfl, ?_, ?_⟩
  · intro m f h
    simp [UnifiedModel.AddFeature, h]
  · intro ops
    have h := buildModel_extIndex_keys ops
    have hfind : (buildModel ops).externalIndex.find?
        (fun p => p.1 = "") = none :=
      List.find?_eq_none.mpr (fun p hp => by simpa using h p hp)
    simp [UnifiedModel.GetFeatureByExternalID, mapFind, hfind]

/-- Witness for C10: the empty-external-ID branch and the lookup
evaluated on a one-feature model. -/
theorem C10_null_feature_and_empty_externalID_witness :
    (UnifiedModel.AddFeature {}
      (some (.extrude { base := { featureID := "E1" } }))).externalIndex =
      ({} : UnifiedModel).externalIndex ∧
    (buildModel [some (.extrude { base := { featureID := "E1" } })]
      ).GetFeatureByExternalID "" = none :=
  ⟨C10_null_feature_and_empty_externalID.2.1 {} _ rfl,
   C10_null_feature_and_empty_externalID.2.2 _⟩

/-- `AddFeature` acts componentwise on the feature list and the two
indexes, so two models agreeing there keep agreeing. -/
theorem addFeature_congr_components (a b : UnifiedModel)
    (o : Option CFeature) (hf : a.features = b.features)
    (hi : a.index = b.index) (he : a.externalIndex = b.externalIndex) :
    (a.AddFeature o).features = (b.AddFeature o).features ∧
    (a.AddFeature o).index = (b.AddFeature o).index ∧
    (a.AddFeature o).externalIndex = (b.AddFeature o).externalIndex := by
  cases o with
  | none => exact ⟨hf, hi, he⟩
  | some f =>
    refine ⟨?_, ?_, ?_⟩ <;> simp [UnifiedModel.AddFeature, hf, hi, he]

/-- The feature-loading fold acts componentwise as well. -/
theorem loadFold_congr_components (ops : List XElem) :
    ∀ (a b : UnifiedModel), a.features = b.features → a.index = b.index →
      a.externalIndex = b.externalIndex →
      (ops.foldl (fun acc fe => acc.AddFeature (LoadFeature fe))
          a).features =
        (ops.foldl (fun acc fe => acc.AddFeature (LoadFeature fe))
          b).features ∧
      (ops.foldl (fun acc fe => acc.AddFeature (LoadFeature fe))
          a).index =
        (ops.foldl (fun acc fe => acc.AddFeature (LoadFeature fe))
          b).index ∧
      (ops.foldl (fun acc fe => acc.AddFeature (LoadFeature fe))
          a).externalIndex =
        (ops.foldl (fun acc fe => acc.AddFeature (LoadFeature fe))
          b).externalIndex := by
  induction ops with
  | nil => intro a b hf hi he; exact ⟨hf, hi, he⟩
  | cons e ops ih =>
    intro a b hf hi he
    obtain ⟨hf1, hi1, he1⟩ :=
      addFeature_congr_components a b (LoadFeature e) hf hi he
    exact ih _ _ hf1 hi1 he1

/-- From two cleared models, the feature-loading fold agrees on the
three cleared components — the destination's prior content is gone. -/
theorem loadFold_from_clear (ops : List XElem) (a b : UnifiedModel) :
    (ops.foldl (fun acc fe => acc.AddFeature (LoadFeature fe))
        a.Clear).features =
      (ops.foldl (fun acc fe => acc.AddFeature (LoadFeature fe))
        b.Clear).features ∧
    (ops.foldl (fun acc fe => acc.AddFeature (LoadFeature fe))
        a.Clear).index =
      (ops.foldl (fun acc fe => acc.AddFeature (LoadFeature fe))
        b.Clear).index ∧
    (ops.foldl (fun acc fe => acc.AddFeature (LoadFeature fe))
        a.Clear).externalIndex =
      (ops.foldl (fun acc fe => acc.AddFeature (LoadFeature fe))
        b.Clear).externalIndex :=
  loadFold_congr_components ops a.Clear b.Clear rfl rfl rfl

/-- Claim C9: a failed `Load` (unreadable file or missing
`UnifiedModel` root) leaves the destination model completely unchanged;
a successful `Load` replaces the prior features entirely — the
resulting list and both indexes are independent of whatever the
destination held before. -/
theorem C9_load_atomic_failure_or_replace :
    (∀ (m : UnifiedModel) (doc : Option (List XElem)),
      (Load m doc).1 = false → (Load m doc).2 = m) ∧
    (∀ (m₁ m₂ : UnifiedModel) (doc : Option (List XElem)),
      (Load m₁ doc).1 = true →
      (Load m₂ doc).1 = true ∧
      (Load m₁ doc).2.features = (Load m₂ doc).2.features ∧
      (Load m₁ doc).2.index = (Load m₂ doc).2.index ∧
      (Load m₁ doc).2.externalIndex = (Load m₂ doc).2.externalIndex) := by
  constructor
  · intro m doc h
    rcases doc with _ | elems
    · rfl
    · rcases hfind : elems.find? (fun e => e.name = "UnifiedModel")
        with _ | root
      · simp [Load, hfind]
      · simp [Load, hfind] at h
  · intro m₁ m₂ doc h
    rcases doc with _ | elems
    · simp [Load] at h
    · rcases hfind : elems.find? (fun e => e.name = "UnifiedModel")
        with _ | root
      · simp [Load, hfind] at h
      · refine ⟨by simp [Load, hfind], ?_, ?_, ?_⟩ <;>
          simp only [Load, hfind] <;>
          [exact (loadFold_from_clear _ _ _).1;
           exact (loadFold_from_clear _ _ _).2.1;
           exact (loadFold_from_clear _ _ _).2.2]

/-- Witness for C9: failure on a missing-root document leaves a
non-trivial destination untouched, and success on an empty document
gives the same features whatever the destination held. -/
theorem C9_load_atomic_witness :
    (Load twoEmptyIDModel
      (some [{ name := "NotAModel", attrs := [], children := [] }])).2 =
      twoEmptyIDModel ∧
    (Load twoEmptyIDModel
        (some [{ name := "UnifiedModel", attrs := [], children := [] }])
      ).2.features =
      (Load {}
        (some [{ name := "UnifiedModel", attrs := [], children := [] }])
      ).2.features :=
  ⟨C9_load_atomic_failure_or_replace.1 twoEmptyIDModel
     (some [{ name := "NotAModel", attrs := [], children := [] }]) rfl,
   (C9_load_atomic_failure_or_replace.2 twoEmptyIDModel {}
     (some [{ name := "UnifiedModel", attrs := [], children := [] }])
     rfl).2.1⟩

/-- A Plane reference element without a `YDir` attribute, whose normal
`(0,0,2)` is not unit length — the cross product with `XDir = (1,0,0)`
is `(0,2,0)`, of length 2. -/
def planeNoYDirElem : XElem :=
  { name := "ReferencePlane"
    attrs := [("Type", .str "Plane"), ("TargetFeatureID", .str "P1"),
      ("Origin", .triple 0 0 0), ("XDir", .triple 1 0 0),
      ("Normal", .triple 0 0 2)]
    children := [] }

/-- The cross product the C8 counterexample turns on. -/
theorem cross_002_100 :
    cross ⟨0, 0, 2⟩ ⟨1, 0, 0⟩ = (⟨0, 2, 0⟩ : CVector3D) := by
  rw [cross]
  norm_num

/-- Normalizing `(0,2,0)` divides by its length 2. -/
theorem normalize_020 :
    normalize ⟨0, 2, 0⟩ = (⟨0, 1, 0⟩ : CVector3D) := by
  have harg : (0 : ℚ) * 0 + 2 * 2 + 0 * 0 = 4 := by norm_num
  have hsqrt : ratSqrt 4 = 2 := by
    rw [ratSqrt,
      show ((4 : ℚ)).num.toNat = 4 from by decide,
      show ((4 : ℚ)).den = 1 from by decide,
      show natSqrt 4 = 2 from by decide,
      show natSqrt 1 = 1 from by decide]
    norm_num
  rw [normalize]
  simp only [harg, hsqrt]
  rw [if_pos (by rw [EPSILON]; norm_num)]
  rw [CVector3D.mk.injEq]
  norm_num

/-- Claim C8 (counterexample): decoding a Plane element with no `YDir`
attribute does not set `yDir` to `cross(normal, xDir)` — the code
normalizes the cross product first.  With `Normal = (0,0,2)` and
`XDir = (1,0,0)` the cross product is `(0,2,0)` but the decoded `yDir`
is `(0,1,0)`. -/
theorem C8_yDir_not_raw_cross :
    LoadRefEntity (some planeNoYDirElem) =
      some (.plane "P1" ⟨0, 0, 0⟩ ⟨1, 0, 0⟩ ⟨0, 1, 0⟩ ⟨0, 0, 2⟩) ∧
    cross ⟨0, 0, 2⟩ ⟨1, 0, 0⟩ = (⟨0, 2, 0⟩ : CVector3D) ∧
    (⟨0, 1, 0⟩ : CVector3D) ≠ (⟨0, 2, 0⟩ : CVector3D) := by
  have h1 : LoadRefEntity (some planeNoYDirElem) =
      some (.plane "P1" ⟨0, 0, 0⟩ ⟨1, 0, 0⟩
        (ComputePlaneYAxis ⟨0, 0, 2⟩ ⟨1, 0, 0⟩) ⟨0, 0, 2⟩) := rfl
  have h2 : ComputePlaneYAxis ⟨0, 0, 2⟩ ⟨1, 0, 0⟩ =
      (⟨0, 1, 0⟩ : CVector3D) := by
    rw [ComputePlaneYAxis, cross_002_100, normalize_020]
  exact ⟨by rw [h1, h2], cross_002_100, by decide⟩

/-- Claim C8 (amended): when decoding a Plane element without a `YDir`
attribute, the resulting plane's `yDir` is the *normalized* cross
product of the decoded normal and xDir (`ComputePlaneYAxis`, a no-op
division when the cross product's length is within `EPSILON` of zero);
when `YDir` is present, `yDir` is taken from it verbatim. -/
theorem C8_yDir_normalized_cross_policy (e : XElem)
    (hType : attrStr e "Type" = some "Plane") :
    (e.getAttr "YDir" = none →
      LoadRefEntity (some e) =
        some (.plane ((attrStr e "TargetFeatureID").getD "")
          (ParsePointAttribute e "Origin") (ParseVectorAttribute e "XDir")
          (ComputePlaneYAxis (ParseVectorAttribute e "Normal")
            (ParseVectorAttribute e "XDir"))
          (ParseVectorAttribute e "Normal"))) ∧
    (∀ yv, e.getAttr "YDir" = some yv →
      LoadRefEntity (some e) =
        some (.plane ((attrStr e "TargetFeatureID").getD "")
          (ParsePointAttribute e "Origin") (ParseVectorAttribute e "XDir")
          (ParseVectorAttribute e "YDir")
          (ParseVectorAttribute e "Normal"))) := by
  have hres : RefTypeFromString (some "Plane") =
      some RefType.featureDatumPlane := by decide
  have hload : LoadRefEntity (some e) =
      some (refEntryLoad RefType.featureDatumPlane e) := by
    simp [LoadRefEntity, hType, hres]
  constructor
  · intro hY
    rw [hload]
    simp [refEntryLoad, hY]
  · intro yv hY
    rw [hload]
    simp [refEntryLoad, hY]

/-- Witness for C8's amended statement: the no-`YDir` branch evaluated
on the concrete plane element. -/
theorem C8_yDir_normalized_cross_policy_witness :
    planeNoYDirElem.getAttr "YDir" = none ∧
    LoadRefEntity (some planeNoYDirElem) =
      some (.plane "P1" ⟨0, 0, 0⟩ ⟨1, 0, 0⟩
        (ComputePlaneYAxis ⟨0, 0, 2⟩ ⟨1, 0, 0⟩) ⟨0, 0, 2⟩) :=
  ⟨rfl, (C8_yDir_normalized_cross_policy planeNoYDirElem rfl).1 rfl⟩

end CADExchange
